import Mathlib

/-!
Shallow embedding of the CodeMentor backend (Express/Mongoose controllers).
Each HTTP handler is modelled as a pure Lean function from the request
context (the authenticated user record attached by the verifyToken
middleware, route parameters, request body) and the relevant document
stores (modelled as lists of records, `findById` as the first list element
with a matching id) to an HTTP status code, paired with the resulting
store for mutating handlers.  Scores are modelled as rationals.
-/

/-- A user record: `{_id, role}` (fields relevant to access control).
In Mongoose `user.id` is the string form of `user._id`; handlers use the
two interchangeably, so the model carries a single string id. -/
structure User where
  id : String
  role : String
deriving DecidableEq, Repr

/-- An interview session record (InterviewSessionModel).  `userId` is the
owning user's id; `feedback` is optional. -/
structure Session where
  id : String
  userId : String
  interviewType : String
  startTime : Int
  endTime : Int
  status : String
  feedback : Option String
deriving DecidableEq, Repr

/-- A submission record (SubmissionModel): owner is `userId`. -/
structure Submission where
  id : String
  userId : String
  problemId : String
deriving DecidableEq, Repr

/-- A coding problem record (ProblemModel): owner is `creatorId`. -/
structure Problem where
  id : String
  creatorId : String
  approved : Bool
deriving DecidableEq, Repr

/-- An interview question record (InterviewQuestionModel). -/
structure Question where
  id : String
  session_id : String
  submittedAnswer : Option String
  feedback : Option String
deriving DecidableEq, Repr

/-- A problem tag record (ProblemTagModel): a `(problemId, tag)` pair. -/
structure ProblemTag where
  id : String
  problemId : String
  tag : String
deriving DecidableEq, Repr

/-- Modelled from the spec: UserStatsModel.js is not among the source
files; spec section 3 gives the fields `{userId, problemsSolved,
averageScore, timeSpent}` keyed 1:1 by userId, created lazily with
default (zero) counters on first access. -/
structure UserStats where
  userId : String
  problemsSolved : Nat
  averageScore : Rat
  timeSpent : Rat
deriving DecidableEq, Repr

/-- Modelled from the spec: the schema defaults of a freshly created
`new UserStats({ userId })` record (counters start at zero). -/
def defaultStats (userId : String) : UserStats :=
  ⟨userId, 0, 0, 0⟩

/-- `User.findById`. -/
def findUser (users : List User) (i : String) : Option User :=
  users.find? (fun u => u.id == i)

/-- `InterviewSession.findById`. -/
def findSession (sessions : List Session) (i : String) : Option Session :=
  sessions.find? (fun s => s.id == i)

/-- `Submission.findById`. -/
def findSubmission (subs : List Submission) (i : String) : Option Submission :=
  subs.find? (fun s => s.id == i)

/-- `Problem.findById`. -/
def findProblem (problems : List Problem) (i : String) : Option Problem :=
  problems.find? (fun p => p.id == i)

/-- `InterviewQuestion.findById`. -/
def findQuestion (questions : List Question) (i : String) : Option Question :=
  questions.find? (fun q => q.id == i)

/-- `ProblemTag.findOne({ problemId, tag })`. -/
def findProblemTag (tags : List ProblemTag) (pid tag : String) : Option ProblemTag :=
  tags.find? (fun t => t.problemId == pid && t.tag == tag)

/-- `UserStats.findOne({ userId })`. -/
def findStats (stats : List UserStats) (uid : String) : Option UserStats :=
  stats.find? (fun s => s.userId == uid)

/-- A date-typed request body field: absent (JS falsy), present but not
parseable as a date (`isNaN(new Date(x))`), or parsing to a timestamp. -/
inductive DateInput where
  | absent
  | invalid
  | valid (t : Int)
deriving DecidableEq, Repr

/-- JS truthiness of an optional string body field (`undefined` and `""`
are falsy). -/
def strTruthy : Option String → Bool
  | none => false
  | some s => s != ""

/-- The `validInterviewTypes` list of `createInterviewSession`. -/
def validInterviewTypes : List String :=
  ["Technical", "HR", "System Design", "Behavioral"]

/-- Request body of `createInterviewSession`; `interviewType = ""` models
an absent/falsy field. -/
structure CreateSessionBody where
  interviewType : String
  startTime : DateInput
  endTime : DateInput
  userId : Option String
deriving DecidableEq, Repr

/-- `createInterviewSession` (interviewSessionController): validates the
required fields, date formats, date ordering and interview type, then
saves a session owned by `req.body.userId || req.user.id`. -/
def createInterviewSession (sessions : List Session) (reqUser : User)
    (newId : String) (body : CreateSessionBody) : Nat × List Session :=
  if body.interviewType = "" ∨ body.startTime = .absent ∨ body.endTime = .absent then
    (400, sessions)
  else
    match body.startTime, body.endTime with
    | .valid s, .valid e =>
      if s ≥ e then (400, sessions)
      else if ¬ (validInterviewTypes.contains body.interviewType) then (400, sessions)
      else
        let owner := match body.userId with
          | some v => if v != "" then v else reqUser.id
          | none => reqUser.id
        (201, sessions ++ [⟨newId, owner, body.interviewType, s, e, "Pending", none⟩])
    | _, _ => (400, sessions)

/-- `getInterviewSessionById`: 404 when the session is absent, then the
ownership gate `role ∈ {admin, interviewer} ∨ session.userId = req.user.id`
on the re-fetched user record (a missing re-fetch throws, caught as 500). -/
def getInterviewSessionById (sessions : List Session) (users : List User)
    (reqUser : User) (paramId : String) : Nat :=
  match findSession sessions paramId with
  | none => 404
  | some session =>
    match findUser users reqUser.id with
    | none => 500
    | some user =>
      if user.role ≠ "admin" ∧ user.role ≠ "interviewer" ∧ session.userId ≠ reqUser.id then
        403
      else 200

/-- Request body of `updateInterviewSession` (fields relevant here). -/
structure UpdateSessionBody where
  feedback : Option String
  startTime : DateInput
  endTime : DateInput
deriving DecidableEq, Repr

/-- Application of `findByIdAndUpdate(id, req.body)` to a session record:
fields present in the body overwrite the stored ones. -/
def applySessionUpdate (body : UpdateSessionBody) (s : Session) : Session :=
  { s with
    feedback := match body.feedback with
      | some f => some f
      | none => s.feedback
    startTime := match body.startTime with
      | .valid t => t
      | _ => s.startTime
    endTime := match body.endTime with
      | .valid t => t
      | _ => s.endTime }

/-- `updateInterviewSession`: 404 on a missing session, ownership gate
`role ∈ {admin, interviewer} ∨ owner`, feedback restricted to
admin/interviewer, date validation, then `findByIdAndUpdate`. -/
def updateInterviewSession (sessions : List Session) (users : List User)
    (reqUser : User) (paramId : String) (body : UpdateSessionBody) :
    Nat × List Session :=
  match findSession sessions paramId with
  | none => (404, sessions)
  | some session =>
    match findUser users reqUser.id with
    | none => (500, sessions)
    | some user =>
      if user.role ≠ "admin" ∧ user.role ≠ "interviewer" ∧ session.userId ≠ reqUser.id then
        (403, sessions)
      else if strTruthy body.feedback ∧ user.role ≠ "admin" ∧ user.role ≠ "interviewer" then
        (403, sessions)
      else if body.startTime = .invalid then (400, sessions)
      else if body.endTime = .invalid then (400, sessions)
      else
        match body.startTime, body.endTime with
        | .valid s, .valid e =>
          if s ≥ e then (400, sessions)
          else (200, sessions.map (fun r => if r.id == paramId then applySessionUpdate body r else r))
        | _, _ =>
          (200, sessions.map (fun r => if r.id == paramId then applySessionUpdate body r else r))

/-- `deleteInterviewSession`: 404 on a missing session, then only the
admin role may delete (`findByIdAndDelete`). -/
def deleteInterviewSession (sessions : List Session) (users : List User)
    (reqUser : User) (paramId : String) : Nat × List Session :=
  match findSession sessions paramId with
  | none => (404, sessions)
  | some _ =>
    match findUser users reqUser.id with
    | none => (500, sessions)
    | some user =>
      if user.role ≠ "admin" then (403, sessions)
      else (200, sessions.filter (fun r => r.id != paramId))

/-- `getSubmissionById` (submissionController): 401 when unauthenticated,
404 when absent, then `role = admin ∨ submission.userId = req.user.id`. -/
def getSubmissionById (subs : List Submission) (reqUser : Option User)
    (paramId : String) : Nat :=
  match reqUser with
  | none => 401
  | some user =>
    match findSubmission subs paramId with
    | none => 404
    | some sub =>
      if user.role ≠ "admin" ∧ sub.userId ≠ user.id then 403
      else 200

/-- `updateProblem` (problemController): 404 when absent, then the
ownership gate `creatorId = req.user._id ∨ role = admin`, then
`findByIdAndUpdate` with the body's updates. -/
def updateProblem (problems : List Problem) (reqUser : User)
    (paramId : String) (updates : Problem → Problem) : Nat × List Problem :=
  match findProblem problems paramId with
  | none => (404, problems)
  | some p =>
    if p.creatorId ≠ reqUser.id ∧ reqUser.role ≠ "admin" then (403, problems)
    else (200, problems.map (fun q => if q.id == paramId then updates q else q))

/-- `deleteProblem` (problemController): same gate as `updateProblem`,
then `findByIdAndDelete`. -/
def deleteProblem (problems : List Problem) (reqUser : User)
    (paramId : String) : Nat × List Problem :=
  match findProblem problems paramId with
  | none => (404, problems)
  | some p =>
    if p.creatorId ≠ reqUser.id ∧ reqUser.role ≠ "admin" then (403, problems)
    else (200, problems.filter (fun q => q.id != paramId))

/-- `checkSessionParticipant` (interviewQuestionController): the
participant-membership helper, stubbed in the source to return true. -/
def checkSessionParticipant (_sessionId : String) (_userId : String) : Bool :=
  true

/-- `submitAnswer` (interviewQuestionController): 401 when
unauthenticated, 404 when the question is absent, 403 when the
participant check fails (no role is consulted), else stores the answer. -/
def submitAnswer (questions : List Question) (reqUser : Option User)
    (paramId : String) (submittedAnswer : Option String) : Nat × List Question :=
  match reqUser with
  | none => (401, questions)
  | some user =>
    match findQuestion questions paramId with
    | none => (404, questions)
    | some q =>
      if ¬ checkSessionParticipant q.session_id user.id then (403, questions)
      else
        (200, questions.map (fun r =>
          if r.id == paramId then { r with submittedAnswer := submittedAnswer } else r))

/-- `getUserStats` (userStatsController): no role or ownership check; the
target `userId` comes from the path, and a default record is created and
saved when none exists. -/
def getUserStats (stats : List UserStats) (_reqUser : User)
    (userId : String) : Nat × List UserStats :=
  match findStats stats userId with
  | some _ => (200, stats)
  | none => (200, stats ++ [defaultStats userId])

/-- `updateUserStats` (userStatsController): no role or ownership check;
`findOneAndUpdate({userId}, updates, {upsert: true})`. -/
def updateUserStats (stats : List UserStats) (_reqUser : User)
    (userId : String) (updates : UserStats → UserStats) : Nat × List UserStats :=
  match findStats stats userId with
  | some _ => (200, stats.map (fun s => if s.userId == userId then updates s else s))
  | none => (200, stats ++ [updates (defaultStats userId)])

/-- `incrementProblemsSolved` (userStatsController): first call for a user
creates a record with one solved problem and `averageScore` equal to the
increment; later calls update the running average. -/
def incrementProblemsSolved (stats : List UserStats) (userId : String)
    (scoreIncrement : Rat) (timeSpent : Rat) : Nat × List UserStats :=
  match findStats stats userId with
  | none => (200, stats ++ [⟨userId, 1, scoreIncrement, timeSpent⟩])
  | some s =>
    let totalScoreBefore := s.averageScore * (s.problemsSolved : Rat)
    let newProblemCount := s.problemsSolved + 1
    let newAverageScore := (totalScoreBefore + scoreIncrement) / ((newProblemCount : Nat) : Rat)
    (200, stats.map (fun r =>
      if r.userId == userId then
        { r with problemsSolved := newProblemCount
                 averageScore := newAverageScore
                 timeSpent := r.timeSpent + timeSpent }
      else r))

/-- `createProblemTag` (problemTagController): admin only; a duplicate
`(problemId, tag)` pair is rejected with 400, a fresh pair is saved. -/
def createProblemTag (tags : List ProblemTag) (reqUser : Option User)
    (newId : String) (pid : String) (tag : String) : Nat × List ProblemTag :=
  match reqUser with
  | none => (403, tags)
  | some u =>
    if u.role ≠ "admin" then (403, tags)
    else
      match findProblemTag tags pid tag with
      | some _ => (400, tags)
      | none => (201, tags ++ [⟨newId, pid, tag⟩])

/-- `updateUserRole` (userController): admin only; the new role must be
`"user"` or `"admin"`, else 400; then `findByIdAndUpdate` (404 when the
target user is absent). -/
def updateUserRole (users : List User) (reqUser : User)
    (paramId : String) (role : String) : Nat × List User :=
  if reqUser.role ≠ "admin" then (403, users)
  else if role ≠ "user" ∧ role ≠ "admin" then (400, users)
  else
    match findUser users paramId with
    | none => (404, users)
    | some _ => (200, users.map (fun x => if x.id == paramId then { x with role := role } else x))

/-- `deleteUser` (userController): admin only; deleting one's own account
is rejected with 400; then `findByIdAndDelete` (404 when absent). -/
def deleteUser (users : List User) (reqUser : User)
    (paramId : String) : Nat × List User :=
  if reqUser.role ≠ "admin" then (403, users)
  else if paramId = reqUser.id then (400, users)
  else
    match findUser users paramId with
    | none => (404, users)
    | some _ => (200, users.filter (fun x => x.id != paramId))

/-! ## Helper lemmas about the store operations -/

/-- After filtering out every record with a given id, a lookup of that id
finds nothing. -/
theorem findSession_filter_self (sessions : List Session) (sid : String) :
    findSession (sessions.filter (fun r => r.id != sid)) sid = none := by
  rw [findSession, List.find?_eq_none]
  intro x hx
  rcases List.mem_filter.mp hx with ⟨_, hne⟩
  simpa using bne_iff_ne.mp hne

/-- Filtering out records of a different id does not change a lookup. -/
theorem findUser_filter_ne (users : List User) (uid pid : String) (h : uid ≠ pid) :
    findUser (users.filter (fun x => x.id != pid)) uid = findUser users uid := by
  induction users with
  | nil => rfl
  | cons v rest ih =>
    simp only [findUser] at ih
    by_cases hvu : v.id = uid
    · have hkeep : (v.id != pid) = true := by
        simp only [bne_iff_ne, ne_eq, hvu]
        exact h
      have hfound : (v.id == uid) = true := by simp [hvu]
      simp [findUser, List.filter_cons, hkeep, List.find?_cons, hfound]
    · have hmiss : (v.id == uid) = false := by simp [hvu]
      by_cases hvp : v.id = pid
      · have hdrop : (v.id != pid) = false := by simp [hvp]
        simp [findUser, List.filter_cons, hdrop, List.find?_cons, hmiss, ih]
      · have hkeep : (v.id != pid) = true := by simp [hvp]
        simp [findUser, List.filter_cons, hkeep, List.find?_cons, hmiss, ih]

/-- A stats lookup commutes with mapping a userId-preserving function
over the store. -/
theorem findStats_map (stats : List UserStats) (uid : String)
    (g : UserStats → UserStats) (h : ∀ r, (g r).userId = r.userId) :
    findStats (stats.map g) uid = (findStats stats uid).map g := by
  induction stats with
  | nil => rfl
  | cons s rest ih =>
    simp only [findStats] at ih
    by_cases hs : s.userId = uid
    · have hb : (s.userId == uid) = true := by simp [hs]
      simp [findStats, List.find?_cons, h, hb]
    · have hb : (s.userId == uid) = false := by simp [hs]
      simp [findStats, List.find?_cons, h, hb, ih]

/-! ## Claim theorems -/

/-- C1: an authenticated identity with role "admin" passes every
Ownership Gate check: when the target record exists, session read and
delete, submission read, and problem update and delete performed by an
admin never hit the 403 ownership denial (they return 200), regardless
of whether the admin's id equals the record's owner or creator id. -/
theorem C1_admin_passes_ownership_gates
    (sessions : List Session) (users : List User) (subs : List Submission)
    (problems : List Problem) (u : User) (sid subid pid : String)
    (updates : Problem → Problem)
    (hadmin : u.role = "admin")
    (hu : findUser users u.id = some u)
    (hs : (findSession sessions sid).isSome = true)
    (hsub : (findSubmission subs subid).isSome = true)
    (hp : (findProblem problems pid).isSome = true) :
    getInterviewSessionById sessions users u sid = 200 ∧
    (deleteInterviewSession sessions users u sid).1 = 200 ∧
    getSubmissionById subs (some u) subid = 200 ∧
    (updateProblem problems u pid updates).1 = 200 ∧
    (deleteProblem problems u pid).1 = 200 := by
  obtain ⟨s, hs⟩ := Option.isSome_iff_exists.mp hs
  obtain ⟨sb, hsb⟩ := Option.isSome_iff_exists.mp hsub
  obtain ⟨p, hp⟩ := Option.isSome_iff_exists.mp hp
  refine ⟨?_, ?_, ?_, ?_, ?_⟩ <;>
    simp [getInterviewSessionById, deleteInterviewSession, getSubmissionById,
      updateProblem, deleteProblem, hs, hsb, hp, hu, hadmin]

/-- C1 witness: concrete admin `a1` operating on records all owned by a
different user `u2`. -/
theorem C1_admin_passes_ownership_gates_witness :
    getInterviewSessionById [⟨"s1", "u2", "Technical", 0, 1, "Pending", none⟩]
        [⟨"a1", "admin"⟩] ⟨"a1", "admin"⟩ "s1" = 200 ∧
    (deleteInterviewSession [⟨"s1", "u2", "Technical", 0, 1, "Pending", none⟩]
        [⟨"a1", "admin"⟩] ⟨"a1", "admin"⟩ "s1").1 = 200 ∧
    getSubmissionById [⟨"b1", "u2", "p1"⟩] (some ⟨"a1", "admin"⟩) "b1" = 200 ∧
    (updateProblem [⟨"p1", "u2", false⟩] ⟨"a1", "admin"⟩ "p1" (fun q => q)).1 = 200 ∧
    (deleteProblem [⟨"p1", "u2", false⟩] ⟨"a1", "admin"⟩ "p1").1 = 200 :=
  C1_admin_passes_ownership_gates
    [⟨"s1", "u2", "Technical", 0, 1, "Pending", none⟩] [⟨"a1", "admin"⟩]
    [⟨"b1", "u2", "p1"⟩] [⟨"p1", "u2", false⟩] ⟨"a1", "admin"⟩ "s1" "b1" "p1"
    (fun q => q) (by decide) (by decide) (by decide) (by decide) (by decide)

/-- C2 counterexample: an identity with role "interviewer" that does not
own session `s1` (owned by `u9`) reads and updates it successfully (200),
not Forbidden (403) as the claim states for every non-admin non-owner. -/
theorem C2_interviewer_nonowner_not_forbidden :
    getInterviewSessionById [⟨"s1", "u9", "Technical", 0, 1, "Pending", none⟩]
        [⟨"i1", "interviewer"⟩] ⟨"i1", "interviewer"⟩ "s1" = 200 ∧
    (updateInterviewSession [⟨"s1", "u9", "Technical", 0, 1, "Pending", none⟩]
        [⟨"i1", "interviewer"⟩] ⟨"i1", "interviewer"⟩ "s1"
        ⟨none, .absent, .absent⟩).1 = 200 := by
  decide

/-- C2 (amended): for every authenticated non-admin identity that does
not own the record, submission read and problem update/delete are
denied (403) — the elevated set there is only {admin}, so this covers
the interviewer role too; session read and update are additionally
denied (403) whenever the role is also not "interviewer". -/
theorem C2_nonelevated_nonowner_forbidden
    (sessions : List Session) (users : List User) (subs : List Submission)
    (problems : List Problem) (u : User) (sid subid pid : String)
    (body : UpdateSessionBody) (updates : Problem → Problem)
    (s : Session) (sb : Submission) (p : Problem)
    (hu : findUser users u.id = some u)
    (ha : u.role ≠ "admin")
    (hs : findSession sessions sid = some s) (hos : s.userId ≠ u.id)
    (hsb : findSubmission subs subid = some sb) (hob : sb.userId ≠ u.id)
    (hp : findProblem problems pid = some p) (hop : p.creatorId ≠ u.id) :
    (u.role ≠ "interviewer" →
      getInterviewSessionById sessions users u sid = 403 ∧
      (updateInterviewSession sessions users u sid body).1 = 403) ∧
    getSubmissionById subs (some u) subid = 403 ∧
    (updateProblem problems u pid updates).1 = 403 ∧
    (deleteProblem problems u pid).1 = 403 := by
  refine ⟨fun hi => ⟨?_, ?_⟩, ?_, ?_, ?_⟩
  · simp [getInterviewSessionById, hs, hu, ha, hi, hos]
  · simp [updateInterviewSession, hs, hu, ha, hi, hos]
  · simp [getSubmissionById, hsb, ha, hob]
  · simp [updateProblem, hp, ha, hop]
  · simp [deleteProblem, hp, ha, hop]

/-- C2 witness: the candidate-role identity `c1` is denied on all five
operations over records owned by `u9`, and the interviewer-role
identity `i1` is denied on submission read and problem update/delete
over records owned by `u9`. -/
theorem C2_nonelevated_nonowner_forbidden_witness :
    (getInterviewSessionById [⟨"s1", "u9", "Technical", 0, 1, "Pending", none⟩]
        [⟨"c1", "candidate"⟩] ⟨"c1", "candidate"⟩ "s1" = 403 ∧
      (updateInterviewSession [⟨"s1", "u9", "Technical", 0, 1, "Pending", none⟩]
        [⟨"c1", "candidate"⟩] ⟨"c1", "candidate"⟩ "s1"
        ⟨none, .absent, .absent⟩).1 = 403) ∧
    getSubmissionById [⟨"b1", "u9", "p1"⟩] (some ⟨"c1", "candidate"⟩) "b1" = 403 ∧
    (updateProblem [⟨"p1", "u9", false⟩] ⟨"c1", "candidate"⟩ "p1" (fun q => q)).1 = 403 ∧
    (deleteProblem [⟨"p1", "u9", false⟩] ⟨"c1", "candidate"⟩ "p1").1 = 403 ∧
    getSubmissionById [⟨"b1", "u9", "p1"⟩] (some ⟨"i1", "interviewer"⟩) "b1" = 403 ∧
    (updateProblem [⟨"p1", "u9", false⟩] ⟨"i1", "interviewer"⟩ "p1" (fun q => q)).1 = 403 ∧
    (deleteProblem [⟨"p1", "u9", false⟩] ⟨"i1", "interviewer"⟩ "p1").1 = 403 :=
  have hc := C2_nonelevated_nonowner_forbidden
    [⟨"s1", "u9", "Technical", 0, 1, "Pending", none⟩] [⟨"c1", "candidate"⟩]
    [⟨"b1", "u9", "p1"⟩] [⟨"p1", "u9", false⟩] ⟨"c1", "candidate"⟩ "s1" "b1" "p1"
    ⟨none, .absent, .absent⟩ (fun q => q)
    ⟨"s1", "u9", "Technical", 0, 1, "Pending", none⟩ ⟨"b1", "u9", "p1"⟩
    ⟨"p1", "u9", false⟩ (by decide) (by decide) (by decide) (by decide)
    (by decide) (by decide) (by decide) (by decide)
  have hi := C2_nonelevated_nonowner_forbidden
    [⟨"s1", "u9", "Technical", 0, 1, "Pending", none⟩] [⟨"i1", "interviewer"⟩]
    [⟨"b1", "u9", "p1"⟩] [⟨"p1", "u9", false⟩] ⟨"i1", "interviewer"⟩ "s1" "b1" "p1"
    ⟨none, .absent, .absent⟩ (fun q => q)
    ⟨"s1", "u9", "Technical", 0, 1, "Pending", none⟩ ⟨"b1", "u9", "p1"⟩
    ⟨"p1", "u9", false⟩ (by decide) (by decide) (by decide) (by decide)
    (by decide) (by decide) (by decide) (by decide)
  ⟨hc.1 (by decide), hc.2.1, hc.2.2.1, hc.2.2.2, hi.2.1, hi.2.2.1, hi.2.2.2⟩

/-- C3: the participant-membership check is stubbed to true for every
(sessionId, userId) pair, so submitting an answer to an existing
question returns 200 (never 403) for every authenticated identity, and
the outcome is independent of the identity's role (no admin bypass). -/
theorem C3_submit_answer_open_to_all
    (sid0 uid0 : String) (questions : List Question) (u : User)
    (qid : String) (ans : Option String) (q : Question)
    (hq : findQuestion questions qid = some q) :
    checkSessionParticipant sid0 uid0 = true ∧
    (submitAnswer questions (some u) qid ans).1 = 200 ∧
    (∀ r, submitAnswer questions (some { u with role := r }) qid ans =
          submitAnswer questions (some u) qid ans) := by
  refine ⟨rfl, ?_, ?_⟩
  · simp [submitAnswer, hq, checkSessionParticipant]
  · intro r
    simp [submitAnswer, hq, checkSessionParticipant]

/-- C3 witness: a concrete identity with no relation to question `q1`'s
session submits an answer successfully. -/
theorem C3_submit_answer_open_to_all_witness :
    checkSessionParticipant "s1" "u7" = true ∧
    (submitAnswer [⟨"q1", "s1", none, none⟩] (some ⟨"u7", "user"⟩) "q1"
        (some "my answer")).1 = 200 ∧
    (∀ r, submitAnswer [⟨"q1", "s1", none, none⟩]
            (some { User.mk "u7" "user" with role := r }) "q1" (some "my answer") =
          submitAnswer [⟨"q1", "s1", none, none⟩] (some ⟨"u7", "user"⟩) "q1"
            (some "my answer")) :=
  C3_submit_answer_open_to_all "s1" "u7" [⟨"q1", "s1", none, none⟩]
    ⟨"u7", "user"⟩ "q1" (some "my answer") ⟨"q1", "s1", none, none⟩ (by decide)

/-- C4: the UserStats handlers perform no ownership or role check: for
every authenticated identity and every userId in the path (equal to the
caller's id or not), getUserStats and updateUserStats return 200, never
403, and getUserStats appends a default stats record when none exists. -/
theorem C4_userstats_unrestricted
    (stats : List UserStats) (u : User) (uid : String)
    (updates : UserStats → UserStats) :
    (getUserStats stats u uid).1 = 200 ∧
    (getUserStats stats u uid).1 ≠ 403 ∧
    (updateUserStats stats u uid updates).1 = 200 ∧
    (updateUserStats stats u uid updates).1 ≠ 403 ∧
    (findStats stats uid = none →
      (getUserStats stats u uid).2 = stats ++ [defaultStats uid]) := by
  have h1 : (getUserStats stats u uid).1 = 200 := by
    unfold getUserStats
    cases findStats stats uid <;> rfl
  have h2 : (updateUserStats stats u uid updates).1 = 200 := by
    unfold updateUserStats
    cases findStats stats uid <;> rfl
  refine ⟨h1, ?_, h2, ?_, ?_⟩
  · rw [h1]
    decide
  · rw [h2]
    decide
  · intro h
    simp [getUserStats, h]

/-- C4 witness: the caller `u7` reads and writes the stats of a
different user `u9` (empty store), with lazy creation on read. -/
theorem C4_userstats_unrestricted_witness :
    (getUserStats [] ⟨"u7", "user"⟩ "u9").1 = 200 ∧
    (getUserStats [] ⟨"u7", "user"⟩ "u9").1 ≠ 403 ∧
    (updateUserStats [] ⟨"u7", "user"⟩ "u9" (fun s => s)).1 = 200 ∧
    (updateUserStats [] ⟨"u7", "user"⟩ "u9" (fun s => s)).1 ≠ 403 ∧
    (findStats [] "u9" = none →
      (getUserStats [] ⟨"u7", "user"⟩ "u9").2 = [] ++ [defaultStats "u9"]) :=
  C4_userstats_unrestricted [] ⟨"u7", "user"⟩ "u9" (fun s => s)

/-- C5: createInterviewSession assigns the session owner from the
request body's userId for every caller, with no role check: when the
body carries a (truthy) userId, the created session is owned by that
id; only when the body omits userId does ownership default to the
caller's id. -/
theorem C5_create_session_owner_from_body
    (sessions : List Session) (u : User) (newId : String)
    (body : CreateSessionBody) (s e : Int)
    (hst : body.startTime = .valid s) (het : body.endTime = .valid e)
    (hlt : s < e)
    (htype : validInterviewTypes.contains body.interviewType = true) :
    (∀ w, body.userId = some w → w ≠ "" →
      createInterviewSession sessions u newId body =
        (201, sessions ++ [⟨newId, w, body.interviewType, s, e, "Pending", none⟩])) ∧
    (body.userId = none →
      createInterviewSession sessions u newId body =
        (201, sessions ++ [⟨newId, u.id, body.interviewType, s, e, "Pending", none⟩])) := by
  have hty : body.interviewType ≠ "" := by
    intro h0
    rw [h0] at htype
    simp [validInterviewTypes] at htype
  have hnot : ¬ s ≥ e := not_le.mpr hlt
  have hmem : body.interviewType ∈ validInterviewTypes := by
    simpa using htype
  constructor
  · intro w hw hwne
    simp [createInterviewSession, hst, het, hty, hnot, hmem, hw, hwne]
  · intro hw
    simp [createInterviewSession, hst, het, hty, hnot, hmem, hw]

/-- C5 witness: a plain user `u7` creates a session for `u9` by passing
userId in the body; omitting it yields a session owned by `u7`. -/
theorem C5_create_session_owner_from_body_witness :
    (∀ w, (CreateSessionBody.mk "Technical" (.valid 0) (.valid 1) (some "u9")).userId = some w →
      w ≠ "" →
      createInterviewSession [] ⟨"u7", "user"⟩ "s1"
          ⟨"Technical", .valid 0, .valid 1, some "u9"⟩ =
        (201, [] ++ [⟨"s1", w, "Technical", 0, 1, "Pending", none⟩])) ∧
    ((CreateSessionBody.mk "Technical" (.valid 0) (.valid 1) (some "u9")).userId = none →
      createInterviewSession [] ⟨"u7", "user"⟩ "s1"
          ⟨"Technical", .valid 0, .valid 1, some "u9"⟩ =
        (201, [] ++ [⟨"s1", "u7", "Technical", 0, 1, "Pending", none⟩])) :=
  C5_create_session_owner_from_body [] ⟨"u7", "user"⟩ "s1"
    ⟨"Technical", .valid 0, .valid 1, some "u9"⟩ 0 1 rfl rfl (by decide) (by decide)

/-- C6: deleting an existing interview session is Forbidden (403, store
unchanged) for every non-admin identity, the owner included, and
succeeds (200, record removed) exactly when the caller's role is
"admin". -/
theorem C6_delete_session_admin_only
    (sessions : List Session) (users : List User) (u : User)
    (sid : String) (s : Session)
    (hu : findUser users u.id = some u)
    (hs : findSession sessions sid = some s) :
    (u.role ≠ "admin" → deleteInterviewSession sessions users u sid = (403, sessions)) ∧
    (u.role = "admin" →
      (deleteInterviewSession sessions users u sid).1 = 200 ∧
      findSession (deleteInterviewSession sessions users u sid).2 sid = none) := by
  constructor
  · intro h
    simp [deleteInterviewSession, hs, hu, h]
  · intro h
    refine ⟨?_, ?_⟩
    · simp [deleteInterviewSession, hs, hu, h]
    · simp [deleteInterviewSession, hs, hu, h, findSession_filter_self]

/-- C6 witness: the owner `u9` is denied deletion of their own session,
while the admin `a1` deletes it. -/
theorem C6_delete_session_admin_only_witness :
    ((User.mk "u9" "user").role ≠ "admin" →
      deleteInterviewSession [⟨"s1", "u9", "Technical", 0, 1, "Pending", none⟩]
          [⟨"u9", "user"⟩] ⟨"u9", "user"⟩ "s1" =
        (403, [⟨"s1", "u9", "Technical", 0, 1, "Pending", none⟩])) ∧
    ((User.mk "u9" "user").role = "admin" →
      (deleteInterviewSession [⟨"s1", "u9", "Technical", 0, 1, "Pending", none⟩]
          [⟨"u9", "user"⟩] ⟨"u9", "user"⟩ "s1").1 = 200 ∧
      findSession (deleteInterviewSession
          [⟨"s1", "u9", "Technical", 0, 1, "Pending", none⟩]
          [⟨"u9", "user"⟩] ⟨"u9", "user"⟩ "s1").2 "s1" = none) :=
  C6_delete_session_admin_only
    [⟨"s1", "u9", "Technical", 0, 1, "Pending", none⟩] [⟨"u9", "user"⟩]
    ⟨"u9", "user"⟩ "s1" ⟨"s1", "u9", "Technical", 0, 1, "Pending", none⟩
    (by decide) (by decide)

/-- C7: two runs of incrementProblemsSolved for one user from an empty
store with score increments 10 then 20 leave problemsSolved = 2 and
averageScore = 15; in general a call on an existing record returns 200
and replaces it by one with problemsSolved incremented by one and
averageScore = (averageScore * problemsSolved + scoreIncrement) /
(problemsSolved + 1). -/
theorem C7_increment_running_average
    (stats : List UserStats) (uid : String) (inc t : Rat) (s : UserStats)
    (hfind : findStats stats uid = some s) :
    (incrementProblemsSolved
        ((incrementProblemsSolved [] "u1" 10 0).2) "u1" 20 0).2 =
      [⟨"u1", 2, 15, 0⟩] ∧
    (incrementProblemsSolved stats uid inc t).1 = 200 ∧
    findStats (incrementProblemsSolved stats uid inc t).2 uid =
      some { s with
        problemsSolved := s.problemsSolved + 1
        averageScore := (s.averageScore * (s.problemsSolved : Rat) + inc) /
          ((s.problemsSolved : Rat) + 1)
        timeSpent := s.timeSpent + t } := by
  refine ⟨?_, ?_, ?_⟩
  · have h1 : (incrementProblemsSolved [] "u1" 10 0).2 = [⟨"u1", 1, 10, 0⟩] := by
      simp [incrementProblemsSolved, findStats]
    rw [h1]
    simp [incrementProblemsSolved, findStats]
    norm_num
  · simp [incrementProblemsSolved, hfind]
  · have hsu : s.userId = uid := by
      have hb : (s.userId == uid) = true := by
        apply List.find?_some (p := fun r : UserStats => r.userId == uid)
        simpa [findStats] using hfind
      simpa using hb
    have hcast : ((s.problemsSolved + 1 : Nat) : Rat) = (s.problemsSolved : Rat) + 1 := by
      push_cast
      ring
    have hg : ∀ r : UserStats,
        ((fun r : UserStats =>
          if r.userId == uid then
            { r with
              problemsSolved := s.problemsSolved + 1
              averageScore := (s.averageScore * (s.problemsSolved : Rat) + inc) /
                ((s.problemsSolved + 1 : Nat) : Rat)
              timeSpent := r.timeSpent + t }
          else r) r).userId = r.userId := by
      intro r
      by_cases hr : (r.userId == uid) = true <;> simp [hr]
    simp only [incrementProblemsSolved, hfind]
    rw [findStats_map stats uid _ hg]
    simp [hfind, hsu, hcast]

/-- C7 witness: the concrete record `u9` with one problem solved at
average 10 receives increment 20. -/
theorem C7_increment_running_average_witness :
    (incrementProblemsSolved
        ((incrementProblemsSolved [] "u1" 10 0).2) "u1" 20 0).2 =
      [⟨"u1", 2, 15, 0⟩] ∧
    (incrementProblemsSolved [⟨"u9", 1, 10, 0⟩] "u9" 20 0).1 = 200 ∧
    findStats (incrementProblemsSolved [⟨"u9", 1, 10, 0⟩] "u9" 20 0).2 "u9" =
      some { UserStats.mk "u9" 1 10 0 with
        problemsSolved := 1 + 1
        averageScore := ((10 : Rat) * ((1 : Nat) : Rat) + 20) / (((1 : Nat) : Rat) + 1)
        timeSpent := 0 + 0 } :=
  C7_increment_running_average [⟨"u9", 1, 10, 0⟩] "u9" 20 0 ⟨"u9", 1, 10, 0⟩ (by decide)

/-- C8: updateUserRole rejects any role outside {"user", "admin"} with a
400 validation error and leaves the user store unchanged (in particular
"interviewer" and "candidate" are rejected). -/
theorem C8_invalid_role_rejected
    (users : List User) (u : User) (pid role : String)
    (hadmin : u.role = "admin")
    (hr1 : role ≠ "user") (hr2 : role ≠ "admin") :
    updateUserRole users u pid role = (400, users) := by
  simp [updateUserRole, hadmin, hr1, hr2]

/-- C8 witness: the admin `a1` attempts to set `u9`'s role to
"interviewer" and to "candidate"; both are rejected with 400 and the
store is unchanged. -/
theorem C8_invalid_role_rejected_witness :
    updateUserRole [⟨"u9", "user"⟩] ⟨"a1", "admin"⟩ "u9" "interviewer" =
      (400, [⟨"u9", "user"⟩]) ∧
    updateUserRole [⟨"u9", "user"⟩] ⟨"a1", "admin"⟩ "u9" "candidate" =
      (400, [⟨"u9", "user"⟩]) :=
  ⟨C8_invalid_role_rejected [⟨"u9", "user"⟩] ⟨"a1", "admin"⟩ "u9" "interviewer"
      (by decide) (by decide) (by decide),
   C8_invalid_role_rejected [⟨"u9", "user"⟩] ⟨"a1", "admin"⟩ "u9" "candidate"
      (by decide) (by decide) (by decide)⟩

/-- C9: createProblemTag rejects a (problemId, tag) pair that already
exists in the store with 400 and inserts nothing, while the first
creation of a fresh pair succeeds with 201 and appends the record. -/
theorem C9_duplicate_tag_rejected
    (tags : List ProblemTag) (u : User) (newId pid tg : String)
    (hadmin : u.role = "admin") :
    ((findProblemTag tags pid tg).isSome = true →
      createProblemTag tags (some u) newId pid tg = (400, tags)) ∧
    (findProblemTag tags pid tg = none →
      createProblemTag tags (some u) newId pid tg = (201, tags ++ [⟨newId, pid, tg⟩])) := by
  constructor
  · intro h
    obtain ⟨x, hx⟩ := Option.isSome_iff_exists.mp h
    simp [createProblemTag, hadmin, hx]
  · intro h
    simp [createProblemTag, hadmin, h]

/-- C9 witness: creating ("p1", "dp") on an empty store succeeds with
201; creating it again on the resulting store is rejected with 400. -/
theorem C9_duplicate_tag_rejected_witness :
    ((findProblemTag [⟨"t1", "p1", "dp"⟩] "p1" "dp").isSome = true →
      createProblemTag [⟨"t1", "p1", "dp"⟩] (some ⟨"a1", "admin"⟩) "t2" "p1" "dp" =
        (400, [⟨"t1", "p1", "dp"⟩])) ∧
    (findProblemTag [] "p1" "dp" = none →
      createProblemTag [] (some ⟨"a1", "admin"⟩) "t1" "p1" "dp" =
        (201, [] ++ [⟨"t1", "p1", "dp"⟩])) :=
  ⟨(C9_duplicate_tag_rejected [⟨"t1", "p1", "dp"⟩] ⟨"a1", "admin"⟩ "t2" "p1" "dp"
      (by decide)).1,
   (C9_duplicate_tag_rejected [] ⟨"a1", "admin"⟩ "t1" "p1" "dp" (by decide)).2⟩

/-- C10: deleteUser never removes the caller's own record: an admin
targeting their own id receives 400 with the store unchanged, and for
every call whatsoever, if the caller's record is in the store before,
it is still found afterwards. -/
theorem C10_delete_user_preserves_caller
    (users : List User) (u : User) (pid : String) :
    (u.role = "admin" → pid = u.id → deleteUser users u pid = (400, users)) ∧
    (∀ x, findUser users u.id = some x →
      findUser (deleteUser users u pid).2 u.id = some x) := by
  constructor
  · intro hadmin hself
    simp [deleteUser, hadmin, hself]
  · intro x hx
    unfold deleteUser
    by_cases ha : u.role = "admin"
    · by_cases hself : pid = u.id
      · simp [ha, hself, hx]
      · cases htgt : findUser users pid with
        | none => simp [ha, hself, htgt, hx]
        | some y =>
          simp only [ha, hself, htgt]
          simp only [ne_eq, not_true_eq_false, if_false, if_neg hself]
          rw [findUser_filter_ne users u.id pid (fun e => hself e.symm)]
          exact hx
    · simp [ha, hx]

/-- C10 witness: admin `a1` is refused self-deletion (400, store
unchanged) and `a1`'s record survives the deletion of `u9`. -/
theorem C10_delete_user_preserves_caller_witness :
    deleteUser [⟨"a1", "admin"⟩, ⟨"u9", "user"⟩] ⟨"a1", "admin"⟩ "a1" =
      (400, [⟨"a1", "admin"⟩, ⟨"u9", "user"⟩]) ∧
    findUser (deleteUser [⟨"a1", "admin"⟩, ⟨"u9", "user"⟩] ⟨"a1", "admin"⟩ "u9").2
        "a1" = some ⟨"a1", "admin"⟩ :=
  ⟨(C10_delete_user_preserves_caller [⟨"a1", "admin"⟩, ⟨"u9", "user"⟩]
      ⟨"a1", "admin"⟩ "a1").1 (by decide) (by decide),
   (C10_delete_user_preserves_caller [⟨"a1", "admin"⟩, ⟨"u9", "user"⟩]
      ⟨"a1", "admin"⟩ "u9").2 ⟨"a1", "admin"⟩ (by decide)⟩
